import Mathlib

/-!
Verification of the AI-Powered Health Risk Profiler backend
(`backend/services/{surveyParser,factorExtractor,riskClassifier,
recommendationEngine,guardrails,schemaValidator,pipeline}.js` and
`backend/server.js`).

Shallow-embedding conventions:
* JavaScript runtime values that flow through the survey pipeline are
  modelled by `JsVal` (null, boolean, integer number, string).  All numeric
  values produced by the pipeline are integers (ages and sleep hours come
  from `parseInt`, scores are integer sums); the fractional part of a
  `parseFloat` result (only reachable for `bmi`) is truncated, which
  preserves every comparison the code performs because all bmi thresholds
  are integers.
* JavaScript decimal weights and confidences (two-decimal values such as
  0.85) are represented in hundredths as natural numbers (85), so the
  `toFixed(2)` round-trip of the source is the identity here and every
  threshold comparison (0.3, 0.5, 0.8) is exact.
* `undefined` (an absent object property) is modelled by `Option.none`;
  `answers.age = some .nullV` is an explicitly stored `null`.
* `JSON.parse` is a platform built-in, not code of this repository; it is
  passed to the definitions that call it as an explicit function parameter
  `jp : String → Option RawObj` (`none` models a thrown `SyntaxError`).
* Timestamps (`new Date().toISOString()`) and `console.warn` logging are
  outside the model.
-/

namespace HealthRisk

/-- A JavaScript runtime value as it occurs in survey answers and raw
request payloads: `null`, a boolean, an (integer) number, or a string. -/
inductive JsVal where
  | nullV : JsVal
  | boolV : Bool → JsVal
  | numV : Int → JsVal
  | strV : String → JsVal
deriving DecidableEq, Repr

/-- JavaScript `String(v)` coercion. -/
def jsToString : JsVal → String
  | .nullV => "null"
  | .boolV true => "true"
  | .boolV false => "false"
  | .numV n => toString n
  | .strV s => s

/-- JavaScript truthiness of a possibly-absent value (`undefined`, `null`,
`false`, `0` and `""` are falsy). -/
def jsTruthy : Option JsVal → Bool
  | none => false
  | some .nullV => false
  | some (.boolV b) => b
  | some (.numV n) => n != 0
  | some (.strV s) => s != ""

/-- Numeric value of the digit list `cs` (most significant first). -/
def digitsVal (cs : List Char) : Nat :=
  cs.foldl (fun acc c => acc * 10 + (c.toNat - 48)) 0

/-- JavaScript `parseInt(s, 10)`: skip leading whitespace, optional sign,
then a non-empty run of decimal digits; `none` models `NaN`. -/
def parseIntCore (cs : List Char) : Option Int :=
  let cs1 := cs.dropWhile (·.isWhitespace)
  let signed : Int × List Char :=
    match cs1 with
    | '-' :: rest => (-1, rest)
    | '+' :: rest => (1, rest)
    | _ => (1, cs1)
  let digits := signed.2.takeWhile (·.isDigit)
  if digits.isEmpty then none else some (signed.1 * (digitsVal digits : Int))

/-- JavaScript `parseFloat(s)` restricted to the integer part of the
literal (fractional digits are truncated; every comparison made on such a
value in the source uses an integer threshold). `none` models `NaN`. -/
def parseFloatCore (cs : List Char) : Option Int :=
  let cs1 := cs.dropWhile (·.isWhitespace)
  let signed : Int × List Char :=
    match cs1 with
    | '-' :: rest => (-1, rest)
    | '+' :: rest => (1, rest)
    | _ => (1, cs1)
  let intDigits := signed.2.takeWhile (·.isDigit)
  let rest := signed.2.dropWhile (·.isDigit)
  let fracDigits : List Char :=
    match rest with
    | '.' :: r => r.takeWhile (·.isDigit)
    | _ => []
  if intDigits.isEmpty && fracDigits.isEmpty then none
  else some (signed.1 * (digitsVal intDigits : Int))

/-- `parseInt(v, 10)` on an arbitrary value: JavaScript first coerces the
argument to a string. -/
def jsParseInt (v : JsVal) : Option Int := parseIntCore (jsToString v).data

/-- `parseFloat(v)` on an arbitrary value (string coercion first). -/
def jsParseFloat (v : JsVal) : Option Int := parseFloatCore (jsToString v).data

/-- JavaScript `Number(s)` coercion of a string: the empty/whitespace
string is `0`, otherwise a full-string numeric literal; `none` is `NaN`. -/
def strToNumber (s : String) : Option Int :=
  let cs := s.data.dropWhile (·.isWhitespace) |>.reverse.dropWhile (·.isWhitespace) |>.reverse
  if cs.isEmpty then some 0
  else
    let signed : Int × List Char :=
      match cs with
      | '-' :: rest => (-1, rest)
      | '+' :: rest => (1, rest)
      | _ => (1, cs)
    if signed.2 ≠ [] ∧ signed.2.all (·.isDigit) then
      some (signed.1 * (digitsVal signed.2 : Int))
    else none

/-- Numeric coercion applied by JavaScript relational operators:
`null → 0`, booleans → 0/1, strings via `Number(·)`; `none` is `NaN`. -/
def jsToNumber : JsVal → Option Int
  | .nullV => some 0
  | .boolV b => some (if b then 1 else 0)
  | .numV n => some n
  | .strV s => strToNumber s

/-- JavaScript `v < k` for a numeric literal `k` (false when `v` is NaN). -/
def jsLtNum (v : JsVal) (k : Int) : Bool :=
  match jsToNumber v with
  | some n => n < k
  | none => false

/-- JavaScript `v > k` for a numeric literal `k` (false when `v` is NaN). -/
def jsGtNum (v : JsVal) (k : Int) : Bool :=
  match jsToNumber v with
  | some n => k < n
  | none => false

/-- String interpolation of a possibly-absent value (template literals
render an absent property as `undefined`). -/
def jsDisplay : Option JsVal → String
  | none => "undefined"
  | some v => jsToString v

/-- ASCII lowercasing (`String.toLowerCase`).  Implemented on the
character list so that it reduces in the kernel. -/
def strLower (s : String) : String := String.mk (s.data.map Char.toLower)

/-- `s.trim()`: strip leading and trailing whitespace. -/
def strTrim (s : String) : String :=
  String.mk ((s.data.dropWhile (·.isWhitespace)).reverse.dropWhile (·.isWhitespace) |>.reverse)

/-- `s.includes(t)`: `t.data` occurs as a contiguous run inside `s.data`. -/
def listContainsSub (pat : List Char) : List Char → Bool
  | [] => pat.isPrefixOf []
  | c :: t => pat.isPrefixOf (c :: t) || listContainsSub pat t

/-- JavaScript `s.includes(t)`. -/
def strIncludes (s t : String) : Bool := listContainsSub t.data s.data

/-- The canonical answer mapping produced by the parser.  Only the eight
vocabulary keys of `EXPECTED_FIELDS` are ever assigned by the source, so
the mapping is a structure with one optional slot per key; `none` is an
absent key and `some .nullV` a stored `null`. -/
structure AnswerMap where
  age : Option JsVal := none
  smoker : Option JsVal := none
  exercise : Option JsVal := none
  diet : Option JsVal := none
  alcohol : Option JsVal := none
  sleep : Option JsVal := none
  stress : Option JsVal := none
  bmi : Option JsVal := none
deriving DecidableEq, Repr

/-- `EXPECTED_FIELDS` from surveyParser.js. -/
def EXPECTED_FIELDS : List String :=
  ["age", "smoker", "exercise", "diet", "alcohol", "sleep", "stress", "bmi"]

/-- `CORE_FIELDS` from surveyParser.js. -/
def CORE_FIELDS : List String := ["age", "smoker", "exercise", "diet"]

/-- Dynamic property access `answers[field]` (unknown keys are absent). -/
def fieldGet (a : AnswerMap) : String → Option JsVal
  | "age" => a.age
  | "smoker" => a.smoker
  | "exercise" => a.exercise
  | "diet" => a.diet
  | "alcohol" => a.alcohol
  | "sleep" => a.sleep
  | "stress" => a.stress
  | "bmi" => a.bmi
  | _ => none

/-- `Object.entries(answers)` restricted to the assigned keys, in field
vocabulary order (the only order the source ever assigns them in). -/
def presentEntries (a : AnswerMap) : List (String × JsVal) :=
  (EXPECTED_FIELDS.map (fun k => (k, fieldGet a k))).filterMap
    (fun kv => kv.2.map (fun v => (kv.1, v)))

/-! ## Risk Classifier (riskClassifier.js) -/

/-- `FACTOR_SCORES` lookup from riskClassifier.js: the fixed per-factor
score table (object property access; unknown labels are absent). -/
def FACTOR_SCORES (factor : String) : Option Nat :=
  if factor = "smoking" then some 25
  else if factor = "poor diet" then some 18
  else if factor = "low exercise" then some 15
  else if factor = "excessive alcohol" then some 20
  else if factor = "poor sleep" then some 10
  else if factor = "high stress" then some 12
  else if factor = "obesity" then some 20
  else if factor = "overweight" then some 10
  else if factor = "advanced age" then some 8
  else if factor = "middle age" then some 4
  else none

/-- `FACTOR_SCORES[factor] || 0` from the scoring loop. -/
def factorScore (factor : String) : Nat := (FACTOR_SCORES factor).getD 0

/-- `getAgeBaseRisk` from riskClassifier.js.  `undefined`/`null` age is 0;
otherwise the JavaScript `<` comparisons coerce the value to a number (a
non-numeric value fails every comparison and falls through to 25). -/
def getAgeBaseRisk (age : Option JsVal) : Nat :=
  match age with
  | none => 0
  | some .nullV => 0
  | some v =>
    if jsLtNum v 30 then 0
    else if jsLtNum v 40 then 5
    else if jsLtNum v 50 then 10
    else if jsLtNum v 60 then 15
    else if jsLtNum v 70 then 20
    else 25

/-- `getRiskLevel` from riskClassifier.js. -/
def getRiskLevel (score : Nat) : String :=
  if score < 25 then "low"
  else if score < 50 then "moderate"
  else if score < 75 then "high"
  else "very high"

/-- One iteration of the `generateRationale` switch. -/
def rationaleFor (answers : AnswerMap) (factor : String) : List String :=
  if factor = "smoking" then ["smoking"]
  else if factor = "poor diet" then
    [if jsTruthy answers.diet then jsDisplay answers.diet ++ " diet" else "poor dietary habits"]
  else if factor = "low exercise" then
    [if answers.exercise = some (.strV "rarely") then "low physical activity" else "sedentary lifestyle"]
  else if factor = "excessive alcohol" then ["high alcohol consumption"]
  else if factor = "poor sleep" then
    [match answers.sleep with
     | some (.numV n) => "inadequate sleep (" ++ toString n ++ " hours)"
     | _ => "poor sleep quality"]
  else if factor = "high stress" then ["chronic stress"]
  else if factor = "obesity" then
    [if jsTruthy answers.bmi then "obesity (BMI: " ++ jsDisplay answers.bmi ++ ")" else "obesity"]
  else if factor = "overweight" then
    [if jsTruthy answers.bmi then "overweight (BMI: " ++ jsDisplay answers.bmi ++ ")" else "overweight"]
  else if factor = "advanced age" then ["age factor (" ++ jsDisplay answers.age ++ " years)"]
  else if factor = "middle age" then []
  else [factor]

/-- `generateRationale` from riskClassifier.js: one entry per factor in
order, with `middle age` contributing nothing. -/
def generateRationale (factors : List String) (answers : AnswerMap) : List String :=
  factors.flatMap (rationaleFor answers)

/-- Result of `classifyRisk` (the `Math.round` of the source is the
identity because the score is an integer sum). -/
structure RiskResult where
  risk_level : String
  score : Nat
  rationale : List String
deriving DecidableEq, Repr

/-- `classifyRisk` from riskClassifier.js: age base risk plus per-factor
scores, capped at 100. -/
def classifyRisk (factors : List String) (answers : AnswerMap) : RiskResult :=
  let score := getAgeBaseRisk answers.age + (factors.map factorScore).sum
  let score := min 100 score
  { risk_level := getRiskLevel score
    score := score
    rationale := generateRationale factors answers }

/-- C1: for every factor list and every answer mapping (whose `age` slot is
an integer, a stored null, or absent, as the data model prescribes),
`classifyRisk` returns `score = min 100 (age base + Σ factor scores)` with
the age base given by the fixed bracket table (unknown age 0), the score
lies in [0,100] (it is a `Nat`, so only the upper bound is stated), and
`risk_level` is determined from the capped score by the <25/<50/<75
thresholds. -/
theorem classifyRisk_c1 (factors : List String) (answers : AnswerMap)
    (hage : answers.age = none ∨ answers.age = some .nullV ∨
      ∃ n : Int, answers.age = some (.numV n)) :
    (classifyRisk factors answers).score =
      min 100
        ((match answers.age with
          | some (JsVal.numV n) =>
            if n < 30 then 0 else if n < 40 then 5 else if n < 50 then 10
            else if n < 60 then 15 else if n < 70 then 20 else 25
          | _ => 0) + (factors.map factorScore).sum) ∧
    (classifyRisk factors answers).score ≤ 100 ∧
    (classifyRisk factors answers).risk_level =
      (if (classifyRisk factors answers).score < 25 then "low"
       else if (classifyRisk factors answers).score < 50 then "moderate"
       else if (classifyRisk factors answers).score < 75 then "high"
       else "very high") := by
  have hbase : getAgeBaseRisk answers.age =
      (match answers.age with
        | some (JsVal.numV n) =>
          if n < 30 then 0 else if n < 40 then 5 else if n < 50 then 10
          else if n < 60 then 15 else if n < 70 then 20 else 25
        | _ => 0) := by
    rcases hage with h | h | ⟨n, h⟩ <;> rw [h] <;>
      simp [getAgeBaseRisk, jsLtNum, jsToNumber]
  refine ⟨by simp [classifyRisk, hbase], ?_, ?_⟩
  · simp [classifyRisk]
  · simp only [classifyRisk, getRiskLevel]

/-- Witness for C1 at `factors = ["smoking", "mystery"]`,
`answers = {age: 45}`. -/
theorem classifyRisk_c1_witness :
    (({ age := some (.numV 45) } : AnswerMap).age = none ∨
      ({ age := some (.numV 45) } : AnswerMap).age = some .nullV ∨
      ∃ n : Int, ({ age := some (.numV 45) } : AnswerMap).age = some (.numV n)) ∧
    ((classifyRisk ["smoking", "mystery"] { age := some (.numV 45) }).score =
      min 100
        ((match ({ age := some (.numV 45) } : AnswerMap).age with
          | some (JsVal.numV n) =>
            if n < 30 then 0 else if n < 40 then 5 else if n < 50 then 10
            else if n < 60 then 15 else if n < 70 then 20 else 25
          | _ => 0) + ((["smoking", "mystery"].map factorScore).sum)) ∧
      (classifyRisk ["smoking", "mystery"] { age := some (.numV 45) }).score ≤ 100 ∧
      (classifyRisk ["smoking", "mystery"] { age := some (.numV 45) }).risk_level =
        (if (classifyRisk ["smoking", "mystery"] { age := some (.numV 45) }).score < 25 then "low"
         else if (classifyRisk ["smoking", "mystery"] { age := some (.numV 45) }).score < 50 then "moderate"
         else if (classifyRisk ["smoking", "mystery"] { age := some (.numV 45) }).score < 75 then "high"
         else "very high")) :=
  ⟨Or.inr (Or.inr ⟨45, rfl⟩),
    classifyRisk_c1 ["smoking", "mystery"] { age := some (.numV 45) }
      (Or.inr (Or.inr ⟨45, rfl⟩))⟩

/-- C9: appending a factor whose entry in the fixed score table is
strictly positive never decreases the score returned by `classifyRisk`. -/
theorem classifyRisk_append_mono (factors : List String) (answers : AnswerMap)
    (f : String) (h : 0 < factorScore f) :
    (classifyRisk factors answers).score ≤
      (classifyRisk (factors ++ [f]) answers).score := by
  simp only [classifyRisk, List.map_append, List.sum_append, List.map_cons,
    List.map_nil, List.sum_cons, List.sum_nil]
  omega

/-- Witness for C9 at `f = "smoking"`, empty factor list, empty answers. -/
theorem classifyRisk_append_mono_witness :
    0 < factorScore "smoking" ∧
    (classifyRisk [] {}).score ≤ (classifyRisk ([] ++ ["smoking"]) {}).score :=
  ⟨by decide, classifyRisk_append_mono [] {} "smoking" (by decide)⟩

/-! ## Recommendation Engine (recommendationEngine.js) -/

/-- A static recommendation record. -/
structure Recommendation where
  primary : String
  details : String
  priority : Nat
  icon : String
deriving DecidableEq, Repr

/-- An entry of `detailedRecommendations`: a recommendation spread together
with the factor that produced it (`none` for the general-wellness entries,
which are pushed without a `factor` property). -/
structure DetailedRec where
  primary : String
  details : String
  priority : Nat
  icon : String
  factor : Option String
deriving DecidableEq, Repr

/-- `RECOMMENDATIONS[factor]` lookup from recommendationEngine.js (nine of
the ten factors have entries; `middle age` has none). -/
def RECOMMENDATIONS (factor : String) : Option Recommendation :=
  if factor = "smoking" then
    some ⟨"Quit smoking",
      "Consider nicotine replacement therapy or consult a healthcare provider for smoking cessation programs",
      1, "cigarette-off"⟩
  else if factor = "poor diet" then
    some ⟨"Improve your diet",
      "Reduce sugar intake, increase vegetables and whole grains, limit processed foods",
      2, "apple"⟩
  else if factor = "low exercise" then
    some ⟨"Increase physical activity",
      "Start with 30 minutes of walking daily, gradually increase intensity",
      3, "footprints"⟩
  else if factor = "excessive alcohol" then
    some ⟨"Reduce alcohol consumption",
      "Limit to moderate drinking or consider abstaining. Seek support if needed",
      2, "wine-off"⟩
  else if factor = "poor sleep" then
    some ⟨"Improve sleep habits",
      "Aim for 7-8 hours of quality sleep. Maintain consistent sleep schedule",
      4, "moon"⟩
  else if factor = "high stress" then
    some ⟨"Manage stress levels",
      "Practice relaxation techniques, consider meditation or yoga, take regular breaks",
      4, "brain"⟩
  else if factor = "obesity" then
    some ⟨"Work towards healthy weight",
      "Consult healthcare provider for personalized weight management plan",
      2, "scale"⟩
  else if factor = "overweight" then
    some ⟨"Consider weight management",
      "Focus on balanced diet and regular exercise for gradual weight loss",
      5, "scale"⟩
  else if factor = "advanced age" then
    some ⟨"Regular health checkups",
      "Schedule regular screenings and preventive care appointments",
      6, "stethoscope"⟩
  else none

/-- First general wellness recommendation (priority 7). -/
def generalHydrated : Recommendation :=
  ⟨"Stay hydrated", "Drink at least 8 glasses of water daily", 7, "droplet"⟩

/-- Second general wellness recommendation (priority 8). -/
def generalCheckups : Recommendation :=
  ⟨"Regular health checkups",
    "Schedule annual wellness visits with your healthcare provider", 8, "calendar-check"⟩

/-- `GENERAL_RECOMMENDATIONS` from recommendationEngine.js. -/
def GENERAL_RECOMMENDATIONS : List Recommendation := [generalHydrated, generalCheckups]

/-- `{...rec, factor}` spread used when pushing detailed recommendations. -/
def toDetailed (r : Recommendation) (factor : Option String) : DetailedRec :=
  ⟨r.primary, r.details, r.priority, r.icon, factor⟩

/-- The ascending-priority comparison used by
`detailedRecommendations.sort((a, b) => a.priority - b.priority)`. -/
def recLe (a b : DetailedRec) : Prop := a.priority ≤ b.priority

instance : DecidableRel recLe := fun a b => Nat.decLe a.priority b.priority

instance : IsTotal DetailedRec recLe := ⟨fun a b => Nat.le_total a.priority b.priority⟩

instance : IsTrans DetailedRec recLe := ⟨fun _ _ _ h h' => Nat.le_trans h h'⟩

/-- The factor-specific recommendation push loop of
`generateRecommendations` (one detailed entry per factor found in the
table, in factor-list order). -/
def factorRecs (factors : List String) : List DetailedRec :=
  factors.filterMap (fun f => (RECOMMENDATIONS f).map (fun r => toDetailed r (some f)))

/-- The `detailedRecommendations.sort(...)` stable ascending sort
(JavaScript `Array.prototype.sort` is stable, as is insertion sort). -/
def sortedFactorRecs (factors : List String) : List DetailedRec :=
  List.insertionSort recLe (factorRecs factors)

/-- The body of the general-recommendation loop: append the entry (to both
the flat primary list and the detailed list) unless its primary text is
already in the flat list. -/
def pushGeneral (p : List String × List DetailedRec) (r : Recommendation) :
    List String × List DetailedRec :=
  if p.1.contains r.primary then p
  else (p.1 ++ [r.primary], p.2 ++ [toDetailed r none])

/-- The general-recommendation append loop of `generateRecommendations`,
run only for `high`/`very high` risk. -/
def withGenerals (factors : List String) (riskLevel : String) :
    List String × List DetailedRec :=
  if riskLevel = "high" ∨ riskLevel = "very high" then
    GENERAL_RECOMMENDATIONS.foldl pushGeneral
      ((factorRecs factors).map (fun x => x.primary), sortedFactorRecs factors)
  else ((factorRecs factors).map (fun x => x.primary), sortedFactorRecs factors)

/-- Result of `generateRecommendations`. -/
structure RecResult where
  recommendations : List String
  detailed_recommendations : List DetailedRec
deriving DecidableEq, Repr

/-- `generateRecommendations` from recommendationEngine.js: factor-specific
recommendations sorted by priority, general entries appended for high
risk, truncated to the top 5, returned both flat and detailed. -/
def generateRecommendations (factors : List String) (riskLevel : String) : RecResult :=
  let top := (withGenerals factors riskLevel).2.take 5
  { recommendations := top.map (fun r => r.primary)
    detailed_recommendations := top }

theorem RECOMMENDATIONS_priority_le {f : String} {r : Recommendation}
    (h : RECOMMENDATIONS f = some r) : r.priority ≤ 6 := by
  unfold RECOMMENDATIONS at h
  split_ifs at h <;> (injection h with h <;> subst h <;> decide)

theorem RECOMMENDATIONS_checkups {f : String} {r : Recommendation}
    (h : RECOMMENDATIONS f = some r)
    (hp : r.primary = "Regular health checkups") : f = "advanced age" := by
  unfold RECOMMENDATIONS at h
  split_ifs at h <;>
    (injection h with h <;> subst h <;>
      first
        | assumption
        | exact absurd hp (by decide))

theorem mem_factorRecs {factors : List String} {x : DetailedRec}
    (hx : x ∈ factorRecs factors) :
    x.priority ≤ 6 ∧ x.factor ≠ none ∧
      (x.primary = "Regular health checkups" → x.factor = some "advanced age") := by
  rw [factorRecs, List.mem_filterMap] at hx
  obtain ⟨f, _, hf⟩ := hx
  cases hr : RECOMMENDATIONS f with
  | none => rw [hr] at hf; simp at hf
  | some r =>
    rw [hr] at hf
    simp only [Option.map_some', Option.some.injEq] at hf
    subst hf
    refine ⟨RECOMMENDATIONS_priority_le hr, by simp [toDetailed], fun hp => ?_⟩
    have := RECOMMENDATIONS_checkups hr hp
    simp [toDetailed, this]

theorem mem_sortedFactorRecs {factors : List String} {x : DetailedRec} :
    x ∈ sortedFactorRecs factors ↔ x ∈ factorRecs factors :=
  (List.perm_insertionSort recLe (factorRecs factors)).mem_iff

theorem withGenerals_structure (factors : List String) (riskLevel : String) :
    ∃ gs : List DetailedRec,
      (withGenerals factors riskLevel).2 = sortedFactorRecs factors ++ gs ∧
      List.Pairwise recLe gs ∧
      (∀ g ∈ gs, 7 ≤ g.priority ∧ g.factor = none) ∧
      (gs ≠ [] → riskLevel = "high" ∨ riskLevel = "very high") ∧
      (∀ g ∈ gs, g.primary = "Regular health checkups" →
        "Regular health checkups" ∉ (factorRecs factors).map (fun x => x.primary)) := by
  by_cases hlvl : riskLevel = "high" ∨ riskLevel = "very high"
  case neg =>
    refine ⟨[], ?_, List.Pairwise.nil, ?_, ?_, ?_⟩
    · rw [withGenerals, if_neg hlvl, List.append_nil]
    · intro g hg; exact absurd hg (List.not_mem_nil g)
    · intro h; exact absurd rfl h
    · intro g hg; exact absurd hg (List.not_mem_nil g)
  case pos =>
    have hw : withGenerals factors riskLevel =
        pushGeneral
          (pushGeneral
            ((factorRecs factors).map (fun x => x.primary), sortedFactorRecs factors)
            generalHydrated)
          generalCheckups := by
      rw [withGenerals, if_pos hlvl]
      rfl
    by_cases h7 :
      ((factorRecs factors).map (fun x => x.primary)).contains "Stay hydrated" = true
    · have e1 : pushGeneral
          ((factorRecs factors).map (fun x => x.primary), sortedFactorRecs factors)
          generalHydrated =
          ((factorRecs factors).map (fun x => x.primary), sortedFactorRecs factors) := by
        simp only [pushGeneral, generalHydrated]
        rw [if_pos h7]
      by_cases h8 :
        ((factorRecs factors).map (fun x => x.primary)).contains
          "Regular health checkups" = true
      · have e2 : withGenerals factors riskLevel =
            ((factorRecs factors).map (fun x => x.primary), sortedFactorRecs factors) := by
          rw [hw, e1]
          simp only [pushGeneral, generalCheckups]
          rw [if_pos h8]
        refine ⟨[], ?_, List.Pairwise.nil, ?_, ?_, ?_⟩
        · rw [e2, List.append_nil]
        · intro g hg; exact absurd hg (List.not_mem_nil g)
        · intro _; exact hlvl
        · intro g hg; exact absurd hg (List.not_mem_nil g)
      · have e2 : withGenerals factors riskLevel =
            ((factorRecs factors).map (fun x => x.primary) ++ ["Regular health checkups"],
              sortedFactorRecs factors ++ [toDetailed generalCheckups none]) := by
          rw [hw, e1]
          simp only [pushGeneral, generalCheckups]
          rw [if_neg h8]
        refine ⟨[toDetailed generalCheckups none], ?_, ?_, ?_, fun _ => hlvl, ?_⟩
        · rw [e2]
        · decide
        · intro g hg
          obtain rfl := List.mem_singleton.mp hg
          exact ⟨by decide, rfl⟩
        · intro g hg _ hmem
          exact h8 (List.elem_iff.mpr hmem)
    · have e1 : pushGeneral
          ((factorRecs factors).map (fun x => x.primary), sortedFactorRecs factors)
          generalHydrated =
          ((factorRecs factors).map (fun x => x.primary) ++ ["Stay hydrated"],
            sortedFactorRecs factors ++ [toDetailed generalHydrated none]) := by
        simp only [pushGeneral, generalHydrated]
        rw [if_neg h7]
      by_cases h8 :
        ((factorRecs factors).map (fun x => x.primary) ++ ["Stay hydrated"]).contains
          "Regular health checkups" = true
      · have e2 : withGenerals factors riskLevel =
            ((factorRecs factors).map (fun x => x.primary) ++ ["Stay hydrated"],
              sortedFactorRecs factors ++ [toDetailed generalHydrated none]) := by
          rw [hw, e1]
          simp only [pushGeneral, generalCheckups]
          rw [if_pos h8]
        refine ⟨[toDetailed generalHydrated none], ?_, ?_, ?_, fun _ => hlvl, ?_⟩
        · rw [e2]
        · decide
        · intro g hg
          obtain rfl := List.mem_singleton.mp hg
          exact ⟨by decide, rfl⟩
        · intro g hg hgp
          obtain rfl := List.mem_singleton.mp hg
          exact absurd hgp (by decide)
      · have e2 : withGenerals factors riskLevel =
            ((factorRecs factors).map (fun x => x.primary) ++ ["Stay hydrated"] ++
                ["Regular health checkups"],
              sortedFactorRecs factors ++ [toDetailed generalHydrated none] ++
                [toDetailed generalCheckups none]) := by
          rw [hw, e1]
          simp only [pushGeneral, generalCheckups]
          rw [if_neg h8]
        refine ⟨[toDetailed generalHydrated none, toDetailed generalCheckups none],
          ?_, ?_, ?_, fun _ => hlvl, ?_⟩
        · rw [e2]
          simp [List.append_assoc]
        · decide
        · intro g hg
          rcases List.mem_cons.mp hg with rfl | hg
          · exact ⟨by decide, rfl⟩
          · obtain rfl := List.mem_singleton.mp hg
            exact ⟨by decide, rfl⟩
        · intro g hg hgp hmem
          rcases List.mem_cons.mp hg with rfl | hg
          · exact absurd hgp (by decide)
          · refine h8 (List.elem_iff.mpr ?_)
            exact List.mem_append.mpr (Or.inl hmem)

/-- C4: for every factor list and risk level, the detailed recommendation
list is sorted ascending by priority and has length at most 5; the flat
list equals the primary texts of the detailed list in order; a detailed
entry without a `factor` tag (a general-wellness entry, priority 7 or 8)
occurs only when the risk level is `high` or `very high`; and when the
`advanced age` factor is present, the general `Regular health checkups`
entry is skipped, so every output entry with that primary text carries a
factor tag. -/
theorem generateRecommendations_c4 (factors : List String) (riskLevel : String) :
    List.Sorted recLe (generateRecommendations factors riskLevel).detailed_recommendations ∧
    (generateRecommendations factors riskLevel).detailed_recommendations.length ≤ 5 ∧
    (generateRecommendations factors riskLevel).recommendations =
      (generateRecommendations factors riskLevel).detailed_recommendations.map
        (fun r => r.primary) ∧
    (∀ r ∈ (generateRecommendations factors riskLevel).detailed_recommendations,
      r.factor = none → riskLevel = "high" ∨ riskLevel = "very high") ∧
    ("advanced age" ∈ factors →
      ∀ r ∈ (generateRecommendations factors riskLevel).detailed_recommendations,
        r.primary = "Regular health checkups" → r.factor ≠ none) := by
  obtain ⟨gs, heq, hgs_sorted, hgs_props, hgs_lvl, hgs_dedup⟩ :=
    withGenerals_structure factors riskLevel
  have hsorted : List.Sorted recLe ((withGenerals factors riskLevel).2) := by
    rw [heq]
    refine List.pairwise_append.mpr ⟨List.sorted_insertionSort recLe _, hgs_sorted, ?_⟩
    intro a ha b hb
    have ha' := mem_factorRecs (mem_sortedFactorRecs.mp ha)
    have hb' := hgs_props b hb
    exact Nat.le_trans ha'.1 (Nat.le_trans (by norm_num) hb'.1)
  have htake_mem : ∀ r ∈ (withGenerals factors riskLevel).2.take 5,
      r ∈ (withGenerals factors riskLevel).2 :=
    fun r hr => (List.take_sublist 5 _).subset hr
  refine ⟨?_, ?_, rfl, ?_, ?_⟩
  · exact hsorted.sublist (List.take_sublist 5 _)
  · simp [generateRecommendations, List.length_take]
  · intro r hr hnone
    have hr2 := htake_mem r hr
    rw [heq] at hr2
    rcases List.mem_append.mp hr2 with hmem | hmem
    · have := (mem_factorRecs (mem_sortedFactorRecs.mp hmem)).2.1
      exact absurd hnone this
    · refine hgs_lvl ?_
      intro h
      rw [h] at hmem
      exact absurd hmem (List.not_mem_nil r)
  · intro hadv r hr hprim
    have hr2 := htake_mem r hr
    rw [heq] at hr2
    rcases List.mem_append.mp hr2 with hmem | hmem
    · exact (mem_factorRecs (mem_sortedFactorRecs.mp hmem)).2.1
    · exfalso
      refine hgs_dedup r hmem hprim ?_
      have hrec : toDetailed ⟨"Regular health checkups",
          "Schedule regular screenings and preventive care appointments", 6,
          "stethoscope"⟩ (some "advanced age") ∈ factorRecs factors := by
        rw [factorRecs, List.mem_filterMap]
        exact ⟨"advanced age", hadv, by rfl⟩
      exact List.mem_map.mpr ⟨_, hrec, rfl⟩

/-- Witness for C4 at a factor list producing 8 matched recommendations
and `very high` risk: the implications of the theorem are discharged at
concrete entries of the 5-element output. -/
theorem generateRecommendations_c4_witness :
    ("advanced age" ∈ ["smoking", "poor diet", "low exercise", "excessive alcohol",
        "poor sleep", "high stress", "obesity", "advanced age"] ∧
      List.Sorted recLe (generateRecommendations
        ["smoking", "poor diet", "low exercise", "excessive alcohol",
         "poor sleep", "high stress", "obesity", "advanced age"]
        "very high").detailed_recommendations ∧
      (generateRecommendations
        ["smoking", "poor diet", "low exercise", "excessive alcohol",
         "poor sleep", "high stress", "obesity", "advanced age"]
        "very high").detailed_recommendations.length ≤ 5) := by
  have h := generateRecommendations_c4
    ["smoking", "poor diet", "low exercise", "excessive alcohol",
     "poor sleep", "high stress", "obesity", "advanced age"] "very high"
  exact ⟨by decide, h.1, h.2.1⟩

/-! ## Factor Extractor (factorExtractor.js) -/

/-- `v?.toLowerCase()` under optional chaining: `some none` is `undefined`
(absent or null receiver), `some (some s)` the lowercased string, and
`none` a thrown `TypeError` (`toLowerCase` is not a function on numbers
and booleans). -/
def jsOptToLower : Option JsVal → Option (Option String)
  | none => some none
  | some .nullV => some none
  | some (.strV s) => some (some (strLower s))
  | some _ => none

/-- A factor-extraction rule: object key, defensive check (`none` models a
thrown exception, caught and skipped by the extractor), display label and
extraction weight (hundredths). -/
structure FactorRule where
  id : String
  check : AnswerMap → Option Bool
  label : String
  weight : Nat

/-- An entry of `factor_details`. -/
structure FactorDetail where
  id : String
  label : String
  weight : Nat
deriving DecidableEq, Repr

/-- The `{id: key, label, weight}` record pushed to `factorDetails`. -/
def detailFor (r : FactorRule) : FactorDetail := ⟨r.id, r.label, r.weight⟩

/-- `FACTOR_RULES.smoking` (`answers.smoker === true`). -/
def smokingRule : FactorRule :=
  ⟨"smoking", fun a => some (a.smoker == some (.boolV true)), "smoking", 100⟩

/-- `FACTOR_RULES.poor_diet`. -/
def poorDietRule : FactorRule :=
  ⟨"poor_diet",
    fun a => (jsOptToLower a.diet).map (fun d =>
      d == some "high sugar" || d == some "junk" || d == some "fast food" ||
        d == some "unhealthy"),
    "poor diet", 90⟩

/-- `FACTOR_RULES.low_exercise`. -/
def lowExerciseRule : FactorRule :=
  ⟨"low_exercise",
    fun a => (jsOptToLower a.exercise).map (fun e =>
      e == some "rarely" || e == some "never" || e == some "sedentary" || e == some "none"),
    "low exercise", 85⟩

/-- `FACTOR_RULES.excessive_alcohol`. -/
def excessiveAlcoholRule : FactorRule :=
  ⟨"excessive_alcohol",
    fun a => (jsOptToLower a.alcohol).map (fun x =>
      x == some "heavy" || x == some "frequent" || x == some "daily"),
    "excessive alcohol", 80⟩

/-- `FACTOR_RULES.poor_sleep` (numeric sleep is range-checked, otherwise
the string synonyms are tried under optional chaining). -/
def poorSleepRule : FactorRule :=
  ⟨"poor_sleep",
    fun a =>
      match a.sleep with
      | some (.numV n) => some (decide (n < 6) || decide (9 < n))
      | v => (jsOptToLower v).map (fun s =>
          s == some "poor" || s == some "bad" || s == some "irregular"),
    "poor sleep", 70⟩

/-- `FACTOR_RULES.high_stress`. -/
def highStressRule : FactorRule :=
  ⟨"high_stress",
    fun a => (jsOptToLower a.stress).map (fun s =>
      s == some "high" || s == some "severe" || s == some "chronic"),
    "high stress", 75⟩

/-- `FACTOR_RULES.obesity` (`typeof bmi === 'number' && bmi >= 30`). -/
def obesityRule : FactorRule :=
  ⟨"obesity",
    fun a =>
      match a.bmi with
      | some (.numV n) => some (decide (30 ≤ n))
      | _ => some false,
    "obesity", 85⟩

/-- `FACTOR_RULES.overweight` (`25 <= bmi < 30`). -/
def overweightRule : FactorRule :=
  ⟨"overweight",
    fun a =>
      match a.bmi with
      | some (.numV n) => some (decide (25 ≤ n) && decide (n < 30))
      | _ => some false,
    "overweight", 60⟩

/-- `FACTOR_RULES.advanced_age` (`typeof age === 'number' && age >= 60`). -/
def advancedAgeRule : FactorRule :=
  ⟨"advanced_age",
    fun a =>
      match a.age with
      | some (.numV n) => some (decide (60 ≤ n))
      | _ => some false,
    "advanced age", 50⟩

/-- `FACTOR_RULES.middle_age` (`40 <= age < 60`). -/
def middleAgeRule : FactorRule :=
  ⟨"middle_age",
    fun a =>
      match a.age with
      | some (.numV n) => some (decide (40 ≤ n) && decide (n < 60))
      | _ => some false,
    "middle age", 30⟩

/-- `FACTOR_RULES` from factorExtractor.js, in object declaration order
(the order `Object.entries` iterates). -/
def FACTOR_RULES : List FactorRule :=
  [smokingRule, poorDietRule, lowExerciseRule, excessiveAlcoholRule, poorSleepRule,
   highStressRule, obesityRule, overweightRule, advancedAgeRule, middleAgeRule]

/-- The descending-weight comparison of
`factorDetails.sort((a, b) => b.weight - a.weight)`. -/
def weightGe (a b : FactorDetail) : Prop := b.weight ≤ a.weight

instance : DecidableRel weightGe := fun a b => Nat.decLe b.weight a.weight

instance : IsTotal FactorDetail weightGe := ⟨fun a b => Nat.le_total b.weight a.weight⟩

instance : IsTrans FactorDetail weightGe := ⟨fun _ _ _ h h' => Nat.le_trans h' h⟩

/-- `calculateFactorConfidence` from factorExtractor.js (hundredths). -/
def calculateFactorConfidence (answers : AnswerMap) (extractedFactors : List String) : Nat :=
  let missingPenalty : Option JsVal → Int := fun v =>
    match v with
    | none => 10
    | some .nullV => 10
    | some _ => 0
  let c1 : Int := 100 - missingPenalty answers.smoker - missingPenalty answers.diet -
    missingPenalty answers.exercise
  let c2 : Int :=
    if extractedFactors.length = 0 ∧ (presentEntries answers).length < 3 then c1 - 20 else c1
  (max 0 (min 100 c2)).toNat

/-- Result of `extractFactors`. -/
structure FactorResult where
  factors : List String
  factor_details : List FactorDetail
  confidence : Nat
deriving DecidableEq, Repr

/-- `extractFactors` from factorExtractor.js: collect the rules whose check
returns true (a throwing check — `none` — is skipped), sort the details by
descending weight with a stable sort (JavaScript `sort` is stable, as is
insertion sort), and compute the confidence from the unsorted factor
list. -/
def extractFactors (answers : AnswerMap) : FactorResult :=
  let matched := FACTOR_RULES.filter (fun r => r.check answers == some true)
  let factors := matched.map (fun r => r.label)
  let sortedDetails := List.insertionSort weightGe (matched.map detailFor)
  { factors := sortedDetails.map (fun f => f.label)
    factor_details := sortedDetails
    confidence := calculateFactorConfidence answers factors }

/-- Appending form of one `filter` step: used to linearize the rule-table
filter into a concatenation of per-rule singletons. -/
theorem ite_cons_append {α : Type} (c : Prop) [Decidable c] (a : α) (t : List α) :
    (if c then a :: t else t) = (if c then [a] else []) ++ t := by
  split <;> simp

/-- One `filter` step in appending form. -/
theorem filter_cons_append {α : Type} (p : α → Bool) (a : α) (l : List α) :
    (a :: l).filter p = (if p a then [a] else []) ++ l.filter p := by
  rw [List.filter_cons, ite_cons_append]

/-- The detail list produced by the rule-table filter, as a function of the
ten per-rule match results (in declaration order). -/
def matchedDetails (b1 b2 b3 b4 b5 b6 b7 b8 b9 b10 : Bool) : List FactorDetail :=
  (if b1 then [detailFor smokingRule] else []) ++
    ((if b2 then [detailFor poorDietRule] else []) ++
    ((if b3 then [detailFor lowExerciseRule] else []) ++
    ((if b4 then [detailFor excessiveAlcoholRule] else []) ++
    ((if b5 then [detailFor poorSleepRule] else []) ++
    ((if b6 then [detailFor highStressRule] else []) ++
    ((if b7 then [detailFor obesityRule] else []) ++
    ((if b8 then [detailFor overweightRule] else []) ++
    ((if b9 then [detailFor advancedAgeRule] else []) ++
    ((if b10 then [detailFor middleAgeRule] else []) ++ ([] : List FactorDetail))))))))))

/-- The rule-table filter of `extractFactors`, mapped to details, equals
`matchedDetails` at the ten match results of the given answers. -/
theorem filter_map_eq_matchedDetails (answers : AnswerMap) :
    ((FACTOR_RULES.filter (fun r => r.check answers == some true)).map detailFor) =
      matchedDetails
        (smokingRule.check answers == some true)
        (poorDietRule.check answers == some true)
        (lowExerciseRule.check answers == some true)
        (excessiveAlcoholRule.check answers == some true)
        (poorSleepRule.check answers == some true)
        (highStressRule.check answers == some true)
        (obesityRule.check answers == some true)
        (overweightRule.check answers == some true)
        (advancedAgeRule.check answers == some true)
        (middleAgeRule.check answers == some true) := by
  simp only [FACTOR_RULES, filter_cons_append, List.filter_nil,
    List.map_append, apply_ite (List.map detailFor), List.map_cons, List.map_nil,
    matchedDetails]

/-- The tie-break property of C5 on a detail list: when both weight-85
labels are present, `low exercise` (declared earlier) comes first. -/
def tieOrderOK (l : List FactorDetail) : Prop :=
  "low exercise" ∈ l.map (fun d => d.label) → "obesity" ∈ l.map (fun d => d.label) →
    (l.map (fun d => d.label)).indexOf "low exercise" <
      (l.map (fun d => d.label)).indexOf "obesity"

instance (l : List FactorDetail) : Decidable (tieOrderOK l) := by
  unfold tieOrderOK
  infer_instance

set_option maxRecDepth 4000 in
theorem tieOrderOK_matchedDetails :
    ∀ b1 b2 b3 b4 b5 b6 b7 b8 b9 b10 : Bool,
      tieOrderOK (List.insertionSort weightGe
        (matchedDetails b1 b2 b3 b4 b5 b6 b7 b8 b9 b10)) := by
  decide

/-- C5: for every answer mapping, `extractFactors` returns factor details
sorted descending by the fixed extraction weight, the `factors` list is
their labels in that order, and the two weight-85 rules keep rule-table
declaration order: `low exercise` appears before `obesity` whenever both
match. -/
theorem extractFactors_c5 (answers : AnswerMap) :
    List.Sorted weightGe (extractFactors answers).factor_details ∧
    (extractFactors answers).factors =
      (extractFactors answers).factor_details.map (fun d => d.label) ∧
    ("low exercise" ∈ (extractFactors answers).factors →
      "obesity" ∈ (extractFactors answers).factors →
      (extractFactors answers).factors.indexOf "low exercise" <
        (extractFactors answers).factors.indexOf "obesity") := by
  have hbridge : (extractFactors answers).factor_details =
      List.insertionSort weightGe
        (matchedDetails
          (smokingRule.check answers == some true)
          (poorDietRule.check answers == some true)
          (lowExerciseRule.check answers == some true)
          (excessiveAlcoholRule.check answers == some true)
          (poorSleepRule.check answers == some true)
          (highStressRule.check answers == some true)
          (obesityRule.check answers == some true)
          (overweightRule.check answers == some true)
          (advancedAgeRule.check answers == some true)
          (middleAgeRule.check answers == some true)) := by
    show List.insertionSort weightGe
        ((FACTOR_RULES.filter (fun r => r.check answers == some true)).map detailFor) = _
    rw [filter_map_eq_matchedDetails]
  have htie : tieOrderOK (extractFactors answers).factor_details := by
    rw [hbridge]
    exact tieOrderOK_matchedDetails _ _ _ _ _ _ _ _ _ _
  refine ⟨List.sorted_insertionSort weightGe _, rfl, ?_⟩
  exact htie

/-- Witness for C5 at `answers = {exercise: "rarely", bmi: 31}`: both
weight-85 factors match and `low exercise` is listed first. -/
theorem extractFactors_c5_witness :
    ("low exercise" ∈ (extractFactors
        { exercise := some (.strV "rarely"), bmi := some (.numV 31) }).factors ∧
      "obesity" ∈ (extractFactors
        { exercise := some (.strV "rarely"), bmi := some (.numV 31) }).factors) ∧
    (extractFactors { exercise := some (.strV "rarely"), bmi := some (.numV 31) }).factors.indexOf
        "low exercise" <
      (extractFactors { exercise := some (.strV "rarely"), bmi := some (.numV 31) }).factors.indexOf
        "obesity" :=
  ⟨⟨by decide, by decide⟩,
    (extractFactors_c5 { exercise := some (.strV "rarely"), bmi := some (.numV 31) }).2.2
      (by decide) (by decide)⟩

/-! ## Survey Parser (surveyParser.js) -/

/-- The raw request object seen by `parseJsonInput` (a parsed JSON body or
a loosely-typed mapping).  Only the eight vocabulary keys are ever read;
`extraKeys` counts any other keys, observable only through
`Object.keys(input).length` in the guardrail emptiness check. -/
structure RawObj where
  age : Option JsVal := none
  smoker : Option JsVal := none
  exercise : Option JsVal := none
  diet : Option JsVal := none
  alcohol : Option JsVal := none
  sleep : Option JsVal := none
  stress : Option JsVal := none
  bmi : Option JsVal := none
  extraKeys : Nat := 0
deriving DecidableEq, Repr

/-- The request-body `input` value: `null`/`undefined`, a string, an
object, a number, a boolean, or an array (whose elements the code never
inspects). -/
inductive InputValue where
  | nullI : InputValue
  | str : String → InputValue
  | obj : RawObj → InputValue
  | num : Int → InputValue
  | boolI : Bool → InputValue
  | arrI : InputValue
deriving DecidableEq, Repr

/-- `Object.keys(o).length` for a raw object. -/
def rawKeyCount (o : RawObj) : Nat :=
  ([o.age, o.smoker, o.exercise, o.diet, o.alcohol, o.sleep, o.stress,
    o.bmi].filter (fun v => v.isSome)).length + o.extraKeys

/-- `normalizeBoolean` from surveyParser.js: booleans pass through, string
synonyms map to a boolean, everything else is null. -/
def normalizeBoolean (v : JsVal) : JsVal :=
  match v with
  | .boolV b => .boolV b
  | .strV s =>
    let lower := strTrim (strLower s)
    if lower ∈ ["yes", "true", "y", "1", "yeah", "yep"] then .boolV true
    else if lower ∈ ["no", "false", "n", "0", "nope", "never"] then .boolV false
    else .nullV
  | _ => .nullV

/-- `normalizeExercise` from surveyParser.js (`!value` guard, then synonym
buckets, else lowercase passthrough). -/
def normalizeExercise (v : JsVal) : JsVal :=
  if jsTruthy (some v) = false then .nullV
  else
    let lower := strTrim (strLower (jsToString v))
    if lower ∈ ["never", "none", "rarely", "sedentary", "no"] then .strV "rarely"
    else if lower ∈ ["sometimes", "occasional", "moderate", "1-2 times", "1-2x", "weekly"] then
      .strV "sometimes"
    else if lower ∈ ["often", "regular", "regularly", "frequent", "3-4 times", "3-4x", "daily"] then
      .strV "regularly"
    else .strV lower

/-- `normalizeDiet` from surveyParser.js (substring buckets, else
lowercase passthrough). -/
def normalizeDiet (v : JsVal) : JsVal :=
  if jsTruthy (some v) = false then .nullV
  else
    let lower := strTrim (strLower (jsToString v))
    if strIncludes lower "high sugar" || strIncludes lower "junk" ||
        strIncludes lower "fast food" || strIncludes lower "unhealthy" then
      .strV "high sugar"
    else if strIncludes lower "balanced" || strIncludes lower "normal" ||
        strIncludes lower "mixed" then
      .strV "balanced"
    else if strIncludes lower "healthy" || strIncludes lower "vegetable" ||
        strIncludes lower "fruit" || strIncludes lower "whole" then
      .strV "healthy"
    else .strV lower

/-- `parseJsonInput` from surveyParser.js, given the already-parsed raw
object: per-field normalization.  `parseInt(x, 10) || null` maps both a
failed parse and a parsed `0` to null (JavaScript `0` is falsy); the same
holds for `parseFloat` on `bmi`, and `parseInt(sleep) || sleep` falls back
to the raw value on `NaN` or `0`. -/
def parseJsonInput (o : RawObj) : AnswerMap :=
  { age := o.age.map (fun v =>
      match jsParseInt v with
      | some n => if n = 0 then JsVal.nullV else .numV n
      | none => JsVal.nullV)
    smoker := o.smoker.map normalizeBoolean
    exercise := o.exercise.map normalizeExercise
    diet := o.diet.map normalizeDiet
    alcohol := o.alcohol.map (fun v =>
      let val := strLower (jsToString v)
      if strIncludes val "heavy" || strIncludes val "frequent" then .strV "heavy"
      else if strIncludes val "moderate" || strIncludes val "social" then .strV "moderate"
      else if strIncludes val "rarely" || strIncludes val "never" ||
          strIncludes val "none" then .strV "rarely"
      else .strV val)
    sleep := o.sleep.map (fun v =>
      match jsParseInt v with
      | some n => if n = 0 then v else .numV n
      | none => v)
    stress := o.stress.map (fun v => .strV (strLower (jsToString v)))
    bmi := o.bmi.map (fun v =>
      match jsParseFloat v with
      | some n => if n = 0 then JsVal.nullV else .numV n
      | none => JsVal.nullV) }

/-- The separator class of the OCR token-split regex `[:\s]+`. -/
def isSepChar (c : Char) : Bool := c = ':' || c.isWhitespace

/-- One step (right to left) of the `split(/[:\s]+/)` fold: the Boolean
records whether the character to the right was a separator (so a run
splits only once). -/
def splitStep (c : Char) (acc : List (List Char) × Bool) : List (List Char) × Bool :=
  if isSepChar c then
    if acc.2 then (acc.1, true) else ([] :: acc.1, true)
  else
    match acc.1 with
    | [] => ([[c]], false)
    | t :: ts => ((c :: t) :: ts, false)

/-- JavaScript `line.split(/[:\s]+/)`: split on maximal separator runs,
keeping the empty tokens a leading/trailing run produces. -/
def jsSplitSeps (cs : List Char) : List String :=
  ((cs.foldr splitStep ([[]], false)).1).map String.mk

/-- `line.split(/[:\s]+/).pop()` (the token list is never empty). -/
def lastToken (line : String) : String := (jsSplitSeps line.data).getLastD ""

/-- JavaScript `arr.join(sep)`. -/
def joinWith (sep : String) : List String → String
  | [] => ""
  | [s] => s
  | s :: rest => s ++ sep ++ joinWith sep rest

/-- Try the pattern `key[:\s]+(cls+)` at the current position: the key,
then at least one separator, then a maximal non-empty run of the capture
class. -/
def capAt (key : List Char) (cls : Char → Bool) (cs : List Char) : Option (List Char) :=
  if key.isPrefixOf cs then
    let after := cs.drop key.length
    let seps := after.takeWhile isSepChar
    let captured := (after.dropWhile isSepChar).takeWhile cls
    if seps.isEmpty || captured.isEmpty then none else some captured
  else none

/-- First match of `key[:\s]+(cls+)` scanning left to right (the regex
engine retries at every position). -/
def scanCap (key : List Char) (cls : Char → Bool) : List Char → Option (List Char)
  | [] => none
  | c :: rest =>
    match capAt key cls (c :: rest) with
    | some v => some v
    | none => scanCap key cls rest

/-- Split a character list on newline characters (single characters, not
runs — `text.split('\n')`). -/
def splitOnNl (cs : List Char) : List (List Char) :=
  cs.foldr
    (fun c acc =>
      match acc with
      | t :: ts => if c = '\n' then [] :: t :: ts else (c :: t) :: ts
      | [] => [[c]])
    [[]]

/-- One line of the `parseOcrText` loop: each keyword match overwrites the
field (within a line the field assignments occur in source order; across
lines, a later line wins because the fold carries the mapping forward). -/
def parseOcrLine (a : AnswerMap) (line : String) : AnswerMap :=
  let lower := strLower line
  let a := match scanCap "age".data (fun c => c.isDigit) lower.data with
    | some d => { a with age := some (.numV (digitsVal d : Int)) }
    | none => a
  let a := if strIncludes lower "smoker" || strIncludes lower "smoking" then
      { a with smoker := some (normalizeBoolean (.strV (lastToken line))) }
    else a
  let a := if strIncludes lower "exercise" || strIncludes lower "activity" ||
      strIncludes lower "workout" then
      { a with exercise := some (normalizeExercise (.strV (lastToken line))) }
    else a
  let a := if strIncludes lower "diet" || strIncludes lower "eating" ||
      strIncludes lower "food" then
      let parts := jsSplitSeps line.data
      let value := joinWith " " (parts.drop 1)
      let d1 := normalizeDiet (.strV value)
      let d2 := if jsTruthy (some d1) then d1 else normalizeDiet (.strV (parts.getLastD ""))
      { a with diet := some d2 }
    else a
  let a := if strIncludes lower "alcohol" || strIncludes lower "drinking" then
      { a with alcohol := some (.strV (strLower (lastToken line))) }
    else a
  let a := match scanCap "sleep".data (fun c => c.isDigit) lower.data with
    | some d => { a with sleep := some (.numV (digitsVal d : Int)) }
    | none => a
  let a := if strIncludes lower "stress" then
      { a with stress := some (.strV (strLower (lastToken line))) }
    else a
  let a := match scanCap "bmi".data (fun c => c.isDigit || c = '.') lower.data with
    | some d =>
      { a with bmi := some (match parseFloatCore d with
          | some n => .numV n
          | none => JsVal.nullV) }
    | none => a
  a

/-- `parseOcrText` from surveyParser.js: trim and drop empty lines, then
scan each line for field keywords (last write wins).  A dot-only bmi
capture, `NaN` in JavaScript, is represented as null (`NaN` is outside the
modelled numeric domain; no downstream comparison distinguishes them). -/
def parseOcrText (text : String) : AnswerMap :=
  let lines := ((splitOnNl text.data).map (fun l => strTrim (String.mk l))).filter
    (fun l => l != "")
  lines.foldl parseOcrLine {}

/-- A guardrail correction record. -/
structure Correction where
  field : String
  action : String
  original : JsVal
deriving DecidableEq, Repr

/-- The parse result of `parseSurvey` (confidence in hundredths; the
`corrections` slot is attached later by the pipeline). -/
structure ParseResult where
  answers : AnswerMap
  missing_fields : List String
  confidence : Nat
  error : Option String := none
  corrections : Option (List Correction) := none
deriving DecidableEq, Repr

/-- `undefined`-or-`null` test used for missing fields. -/
def isMissing : Option JsVal → Bool
  | none => true
  | some .nullV => true
  | some _ => false

/-- `getMissingFields` from surveyParser.js: core fields that are absent
or null, in vocabulary order. -/
def getMissingFields (a : AnswerMap) : List String :=
  CORE_FIELDS.filter (fun f => isMissing (fieldGet a f))

/-- `calculateConfidence` from surveyParser.js, in hundredths: start at
1.0, −0.1 for OCR, −0.05 per missing core field, −0.02 per stored null;
clamped to [0,1].  (`toFixed(2)` is the identity on hundredths.) -/
def calculateConfidence (answers : AnswerMap) (isOcr : Bool) : Nat :=
  let parsedFields :=
    ((presentEntries answers).filter (fun kv => kv.2 != JsVal.nullV)).map (fun kv => kv.1)
  let c1 : Int := if isOcr then 100 - 10 else 100
  let coreFieldsPresent := (CORE_FIELDS.filter (fun f => parsedFields.contains f)).length
  let c2 : Int := c1 - ((CORE_FIELDS.length : Int) - coreFieldsPresent) * 5
  let nullCount := ((presentEntries answers).filter (fun kv => kv.2 == JsVal.nullV)).length
  let c3 : Int := c2 - nullCount * 2
  (max 0 (min 100 c3)).toNat

/-- The `try`-block body of `parseSurvey`: which parser runs, and whether
it throws.  `.error` carries the JavaScript error message.  For OCR, a
non-string input throws (`split` is not a function); for structured input
a `null` receiver throws on field access; a failed `JSON.parse` of a
string falls back to the OCR-style line scan (the inner catch). -/
def parseSurveyAnswers (jp : String → Option RawObj) (input : InputValue)
    (isOcr : Bool) : Except String AnswerMap :=
  if isOcr then
    match input with
    | .str s => .ok (parseOcrText s)
    | _ => .error "input.split is not a function"
  else
    match input with
    | .str s =>
      match jp s with
      | some o => .ok (parseJsonInput o)
      | none => .ok (parseOcrText s)
    | .obj o => .ok (parseJsonInput o)
    | .nullI => .error "Cannot read properties of null (reading 'age')"
    | .num _ => .ok (parseJsonInput {})
    | .boolI _ => .ok (parseJsonInput {})
    | .arrI => .ok (parseJsonInput {})

/-- `parseSurvey` from surveyParser.js: the catch-all returns the empty
answer set with all core fields missing and zero confidence. -/
def parseSurvey (jp : String → Option RawObj) (input : InputValue)
    (isOcr : Bool) : ParseResult :=
  match parseSurveyAnswers jp input isOcr with
  | .error msg =>
    { answers := {}, missing_fields := CORE_FIELDS, confidence := 0,
      error := some ("Failed to parse input: " ++ msg) }
  | .ok answers =>
    { answers := answers, missing_fields := getMissingFields answers,
      confidence := calculateConfidence answers isOcr }

/-- A `JSON.parse` stand-in that always throws. -/
def jpNone : String → Option RawObj := fun _ => none

/-- C6: `parseSurvey` is a total function of its input (it never throws to
its caller); when the internal parsing throws, the result is exactly
`{answers: {}, missing_fields: CORE_FIELDS, confidence: 0, error: msg}`,
and otherwise the result carries no error field. -/
theorem parseSurvey_c6 (jp : String → Option RawObj) (input : InputValue) (isOcr : Bool) :
    (∀ msg, parseSurveyAnswers jp input isOcr = .error msg →
      parseSurvey jp input isOcr =
        { answers := {}, missing_fields := CORE_FIELDS, confidence := 0,
          error := some ("Failed to parse input: " ++ msg) }) ∧
    (∀ a, parseSurveyAnswers jp input isOcr = .ok a →
      (parseSurvey jp input isOcr).error = none) := by
  constructor <;> intro x h <;> simp [parseSurvey, h]

/-- Witness for C6 at a throwing input (`null` structured input). -/
theorem parseSurvey_c6_witness :
    parseSurveyAnswers jpNone .nullI false =
      .error "Cannot read properties of null (reading 'age')" ∧
    parseSurvey jpNone .nullI false =
      { answers := {}, missing_fields := CORE_FIELDS, confidence := 0,
        error := some
          "Failed to parse input: Cannot read properties of null (reading 'age')" } :=
  ⟨rfl, (parseSurvey_c6 jpNone .nullI false).1 _ rfl⟩

/-- C7 (code bug): a raw `age` of `0` (or `"0"`) parses to the integer 0,
yet `parseInt(...) || null` stores null, because `0` is falsy — the
normalization does not map every successfully parsed integer to itself. -/
theorem parseJsonInput_age_zero :
    jsParseInt (.numV 0) = some 0 ∧
    (parseJsonInput { age := some (.numV 0) }).age = some JsVal.nullV ∧
    jsParseInt (.strV "0") = some 0 ∧
    (parseJsonInput { age := some (.strV "0") }).age = some JsVal.nullV := by
  refine ⟨by decide, by decide, by decide, by decide⟩

/-! ## Guardrails (guardrails.js) -/

/-- Named guardrail configuration constants (`CONFIG`); percentages and
confidences in hundredths. -/
structure Config where
  MIN_CONFIDENCE : Nat
  MAX_MISSING_PERCENTAGE : Nat
  AGE_MIN : Int
  AGE_MAX : Int
  BMI_MIN : Int
  BMI_MAX : Int
  SLEEP_MIN : Int
  SLEEP_MAX : Int

/-- `CONFIG` from guardrails.js. -/
def CONFIG : Config := ⟨30, 50, 0, 150, 10, 100, 0, 24⟩

/-- A guardrail warning.  The source objects carry `type` and `message`
plus per-kind echo properties (`fields`, `confidence`, `field`) that
merely repeat data already in the parse result; only `type` and `message`
are modelled. -/
structure Warning where
  wtype : String
  message : String
deriving DecidableEq, Repr

/-- Result shape shared by `validateInput` and `checkProfileCompleteness`
(absent object properties are `none`). -/
structure GuardResult where
  isValid : Bool
  status : Option String := none
  reason : Option String := none
  missing_fields : Option (List String) := none
  warnings : Option (List Warning) := none
deriving DecidableEq, Repr

/-- `generateWarnings` from guardrails.js (advisory, non-blocking).  The
age/bmi range tests use JavaScript `<`/`>`, which coerce a stored null to
0. -/
def generateWarnings (pr : ParseResult) : List Warning :=
  let w1 := if pr.missing_fields.length > 0 then
      [⟨"missing_fields", "Some fields are missing: " ++ joinWith ", " pr.missing_fields ++
        ". Results may be less accurate."⟩]
    else []
  let w2 := if pr.confidence < 80 then
      [⟨"low_confidence", "Some answers could not be parsed with high confidence."⟩]
    else []
  let w3 := match pr.answers.age with
    | none => []
    | some v =>
      if jsLtNum v 18 || jsGtNum v 100 then
        [⟨"unusual_value", "Age value (" ++ jsToString v ++
          ") is outside typical range (18-100)."⟩]
      else []
  let w4 := match pr.answers.bmi with
    | none => []
    | some v =>
      if jsLtNum v 15 || jsGtNum v 50 then
        [⟨"unusual_value", "BMI value (" ++ jsToString v ++
          ") is outside typical range (15-50)."⟩]
      else []
  w1 ++ w2 ++ w3 ++ w4

/-- `checkProfileCompleteness` from guardrails.js.  The missing-percentage
comparison `missing/4 > 0.5` is rationalized to the exact integer form
`missing * 100 > 50 * 4`; the low-confidence reason shows the confidence
in percent, which is the hundredths value itself. -/
def checkProfileCompleteness (pr : ParseResult) : GuardResult :=
  match pr.error with
  | some e =>
    { isValid := false, status := some "parse_error", reason := some e }
  | none =>
    if pr.confidence < CONFIG.MIN_CONFIDENCE then
      { isValid := false, status := some "low_confidence",
        reason := some ("Confidence too low (" ++ toString pr.confidence ++
          "%). Cannot reliably process input.") }
    else if pr.missing_fields.length * 100 >
        CONFIG.MAX_MISSING_PERCENTAGE * CORE_FIELDS.length then
      { isValid := false, status := some "incomplete_profile",
        reason := some ">50% fields missing", missing_fields := some pr.missing_fields }
    else if ((presentEntries pr.answers).filter
        (fun kv => kv.2 != JsVal.nullV)).length = 0 then
      { isValid := false, status := some "no_data",
        reason := some "No valid survey data found" }
    else
      { isValid := true, status := some "ok",
        warnings := some (generateWarnings pr) }

/-- The opening-brace character (0x7b). -/
def openBrace : Char := Char.ofNat 123

/-- `validateInput` from guardrails.js.  The invalid-json reason embeds
the engine's `SyntaxError` message, which the model cannot reproduce; a
fixed marker string stands in for it. -/
def validateInput (jp : String → Option RawObj) (input : InputValue) : GuardResult :=
  match input with
  | .nullI =>
    { isValid := false, status := some "invalid_input",
      reason := some "Input is null or undefined" }
  | .str s =>
    let trimmed := strTrim s
    if trimmed.length = 0 then
      { isValid := false, status := some "empty_input", reason := some "Input is empty" }
    else if trimmed.data.headD ' ' = openBrace ∧ jp trimmed = none then
      { isValid := false, status := some "invalid_json",
        reason := some "Invalid JSON format: SyntaxError" }
    else { isValid := true }
  | .obj o =>
    if rawKeyCount o = 0 then
      { isValid := false, status := some "empty_input",
        reason := some "Input object is empty" }
    else { isValid := true }
  | .arrI =>
    { isValid := false, status := some "invalid_input",
      reason := some "Input cannot be an array. Expected object or string." }
  | .num _ => { isValid := true }
  | .boolI _ => { isValid := true }

/-- Result of `validateAnswerRanges`. -/
structure RangeValidation where
  isValid : Bool
  correctedAnswers : AnswerMap
  corrections : List Correction
deriving DecidableEq, Repr

/-- The age block of `validateAnswerRanges`: best-effort integer
conversion (`parseInt || null`, with a `type_conversion` record when the
result is non-null), then clamping to `[AGE_MIN, AGE_MAX]`. -/
def correctAge (v0 : Option JsVal) : Option JsVal × List Correction :=
  match v0 with
  | none => (none, [])
  | some .nullV => (some .nullV, [])
  | some v =>
    let converted : Option JsVal × List Correction :=
      match v with
      | .numV n => (some (.numV n), [])
      | w =>
        match jsParseInt w with
        | some n =>
          if n = 0 then (some .nullV, [])
          else (some (.numV n), [⟨"age", "type_conversion", w⟩])
        | none => (some .nullV, [])
    match converted.1 with
    | some (.numV n) =>
      if n < CONFIG.AGE_MIN then
        (some (.numV CONFIG.AGE_MIN), converted.2 ++ [⟨"age", "clamped_to_min", .numV n⟩])
      else if n > CONFIG.AGE_MAX then
        (some (.numV CONFIG.AGE_MAX), converted.2 ++ [⟨"age", "clamped_to_max", .numV n⟩])
      else (some (.numV n), converted.2)
    | w => (w, converted.2)

/-- The bmi block of `validateAnswerRanges` (`parseFloat` conversion, then
clamping to `[BMI_MIN, BMI_MAX]`). -/
def correctBmi (v0 : Option JsVal) : Option JsVal × List Correction :=
  match v0 with
  | none => (none, [])
  | some .nullV => (some .nullV, [])
  | some v =>
    let converted : Option JsVal × List Correction :=
      match v with
      | .numV n => (some (.numV n), [])
      | w =>
        match jsParseFloat w with
        | some n =>
          if n = 0 then (some .nullV, [])
          else (some (.numV n), [⟨"bmi", "type_conversion", w⟩])
        | none => (some .nullV, [])
    match converted.1 with
    | some (.numV n) =>
      if n < CONFIG.BMI_MIN then
        (some (.numV CONFIG.BMI_MIN), converted.2 ++ [⟨"bmi", "clamped_to_min", .numV n⟩])
      else if n > CONFIG.BMI_MAX then
        (some (.numV CONFIG.BMI_MAX), converted.2 ++ [⟨"bmi", "clamped_to_max", .numV n⟩])
      else (some (.numV n), converted.2)
    | w => (w, converted.2)

/-- The sleep block of `validateAnswerRanges`: clamp to
`[SLEEP_MIN, SLEEP_MAX]` only when the value is already numeric. -/
def correctSleep (v0 : Option JsVal) : Option JsVal × List Correction :=
  match v0 with
  | some (.numV n) =>
    if n < CONFIG.SLEEP_MIN then
      (some (.numV CONFIG.SLEEP_MIN), [⟨"sleep", "clamped_to_min", .numV n⟩])
    else if n > CONFIG.SLEEP_MAX then
      (some (.numV CONFIG.SLEEP_MAX), [⟨"sleep", "clamped_to_max", .numV n⟩])
    else (some (.numV n), [])
  | w => (w, [])

/-- The smoker block of `validateAnswerRanges`: a string value is
lowercased (not trimmed) and mapped through the guardrail's own synonym
lists `['yes','true','1','y']` / `['no','false','0','n']`. -/
def correctSmoker (v0 : Option JsVal) : Option JsVal × List Correction :=
  match v0 with
  | some (.strV s) =>
    let lower := strLower s
    if lower ∈ ["yes", "true", "1", "y"] then
      (some (.boolV true), [⟨"smoker", "normalized_to_boolean", .strV s⟩])
    else if lower ∈ ["no", "false", "0", "n"] then
      (some (.boolV false), [⟨"smoker", "normalized_to_boolean", .strV s⟩])
    else (some (.strV s), [])
  | w => (w, [])

/-- `validateAnswerRanges` from guardrails.js: corrected copy of the
answers plus the correction records, in source order (age, bmi, sleep,
smoker); `isValid` means "no correction was needed". -/
def validateAnswerRanges (answers : AnswerMap) : RangeValidation :=
  let age := correctAge answers.age
  let bmi := correctBmi answers.bmi
  let sleep := correctSleep answers.sleep
  let smoker := correctSmoker answers.smoker
  let corrections := age.2 ++ bmi.2 ++ sleep.2 ++ smoker.2
  { isValid := corrections.isEmpty
    correctedAnswers :=
      { answers with age := age.1, bmi := bmi.1, sleep := sleep.1, smoker := smoker.1 }
    corrections := corrections }

/-- Maximal run length of characters satisfying `p`. -/
def maxRunBy (p : Char → Bool) (cs : List Char) : Nat :=
  (cs.foldl (fun acc c => if p c then (acc.1 + 1, max acc.2 (acc.1 + 1)) else (0, acc.2))
    ((0 : Nat), (0 : Nat))).2

/-- Run-length encoding of a character list. -/
def runLengths (cs : List Char) : List (Char × Nat) :=
  cs.foldr
    (fun c acc =>
      match acc with
      | (c', n) :: rest => if c = c' then (c', n + 1) :: rest else (c, 1) :: (c', n) :: rest
      | [] => [(c, 1)])
    []

/-- Result of `validateOcrText`. -/
structure OcrValidation where
  isValid : Bool
  reason : Option String := none
  warnings : List Warning := []
  keywordsFound : List String := []
deriving DecidableEq, Repr

/-- The survey keywords probed by `validateOcrText`. -/
def surveyKeywords : List String :=
  ["age", "smoker", "smoking", "exercise", "diet", "sleep", "stress"]

/-- `validateOcrText` from guardrails.js (call sites pass a string; the
falsy check is the empty string).  Artifact patterns: five or more
consecutive non-ASCII characters, or a character (other than a line
terminator, which `.` does not match) repeated six or more times. -/
def validateOcrText (text : String) : OcrValidation :=
  if text = "" then
    { isValid := false, reason := some "OCR text is empty or invalid" }
  else
    let trimmed := strTrim text
    if trimmed.length < 10 then
      { isValid := false,
        reason := some "OCR text is too short to contain valid survey data" }
    else
      let hasArtifacts :=
        maxRunBy (fun c => 127 < c.toNat) trimmed.data ≥ 5 ||
          ((runLengths trimmed.data).filter
            (fun r => r.1 != '\n' && r.1 != '\r')).any (fun r => r.2 ≥ 6)
      let w1 := if hasArtifacts then
          [⟨"ocr_artifacts", "OCR text may contain recognition artifacts"⟩]
        else []
      let found := surveyKeywords.filter (fun kw => strIncludes (strLower trimmed) kw)
      let w2 := if found.length = 0 then
          [⟨"no_survey_keywords", "OCR text does not contain recognizable survey fields"⟩]
        else []
      { isValid := true, warnings := w1 ++ w2, keywordsFound := found }

/-- C8 counterexample: the Normalizer maps `"yeah"` to `true`, but the
guardrail's smoker correction does not (its synonym list lacks `yeah`),
so the two synonym sets are not the same. -/
theorem smoker_sets_differ_c8 :
    normalizeBoolean (.strV "yeah") = .boolV true ∧
    (validateAnswerRanges { smoker := some (.strV "yeah") }).correctedAnswers.smoker =
      some (.strV "yeah") ∧
    (validateAnswerRanges { smoker := some (.strV "yeah") }).corrections = [] := by
  refine ⟨by decide, by decide, by decide⟩

/-- C8 (amended): the guardrail's smoker correction maps a string to a
boolean via its own lowercased synonym lists `{yes,true,1,y}` and
`{no,false,0,n}`, which are strict subsets of the Normalizer's sets: every
string the guardrail corrects to a boolean is mapped to the same boolean
by the Normalizer, but not conversely (`yeah`/`yep`/`nope`/`never` are
Normalizer-only). -/
theorem validateAnswerRanges_smoker_c8 (s : String) :
    ((validateAnswerRanges { smoker := some (.strV s) }).correctedAnswers.smoker =
        some (.boolV true) ↔ strLower s ∈ ["yes", "true", "1", "y"]) ∧
    ((validateAnswerRanges { smoker := some (.strV s) }).correctedAnswers.smoker =
        some (.boolV false) ↔ strLower s ∈ ["no", "false", "0", "n"]) ∧
    (strLower s ∈ ["yes", "true", "1", "y"] → normalizeBoolean (.strV s) = .boolV true) ∧
    (strLower s ∈ ["no", "false", "0", "n"] → normalizeBoolean (.strV s) = .boolV false) := by
  have hsm : (validateAnswerRanges { smoker := some (.strV s) }).correctedAnswers.smoker =
      (correctSmoker (some (.strV s))).1 := rfl
  have hnb : ∀ t : String, strLower s = t → strTrim t = t →
      normalizeBoolean (.strV s) =
        (if t ∈ ["yes", "true", "y", "1", "yeah", "yep"] then JsVal.boolV true
         else if t ∈ ["no", "false", "n", "0", "nope", "never"] then JsVal.boolV false
         else JsVal.nullV) := by
    intro t ht htrim
    simp only [normalizeBoolean, ht, htrim]
  refine ⟨?_, ?_, ?_, ?_⟩
  · rw [hsm]
    simp only [correctSmoker]
    by_cases h1 : strLower s ∈ ["yes", "true", "1", "y"]
    · simp [h1]
    · rw [if_neg h1]
      by_cases h2 : strLower s ∈ ["no", "false", "0", "n"]
      · simp [h1, h2]
      · simp [h1, h2]
  · rw [hsm]
    simp only [correctSmoker]
    by_cases h1 : strLower s ∈ ["yes", "true", "1", "y"]
    · have h2 : strLower s ∉ ["no", "false", "0", "n"] := by
        simp only [List.mem_cons, List.not_mem_nil, or_false] at h1 ⊢
        rcases h1 with h | h | h | h <;> rw [h] <;> decide
      simp [h1, h2]
    · rw [if_neg h1]
      by_cases h2 : strLower s ∈ ["no", "false", "0", "n"]
      · simp [h2]
      · simp [h1, h2]
  · intro h1
    simp only [List.mem_cons, List.not_mem_nil, or_false] at h1
    rcases h1 with h | h | h | h
    · rw [hnb "yes" h (by decide)]; decide
    · rw [hnb "true" h (by decide)]; decide
    · rw [hnb "1" h (by decide)]; decide
    · rw [hnb "y" h (by decide)]; decide
  · intro h1
    simp only [List.mem_cons, List.not_mem_nil, or_false] at h1
    rcases h1 with h | h | h | h
    · rw [hnb "no" h (by decide)]; decide
    · rw [hnb "false" h (by decide)]; decide
    · rw [hnb "0" h (by decide)]; decide
    · rw [hnb "n" h (by decide)]; decide

/-- Witness for C8 (amended) at `s = "yes"` and `s = "no"`. -/
theorem validateAnswerRanges_smoker_c8_witness :
    (strLower "yes" ∈ ["yes", "true", "1", "y"] ∧
      normalizeBoolean (.strV "yes") = .boolV true) ∧
    (strLower "no" ∈ ["no", "false", "0", "n"] ∧
      normalizeBoolean (.strV "no") = .boolV false) :=
  ⟨⟨by decide, (validateAnswerRanges_smoker_c8 "yes").2.2.1 (by decide)⟩,
    ⟨by decide, (validateAnswerRanges_smoker_c8 "no").2.2.2 (by decide)⟩⟩

/-- A key with a non-absent value is among the present entries. -/
theorem presentEntries_mem (a : AnswerMap) (k : String) (v : JsVal)
    (hk : k ∈ EXPECTED_FIELDS) (hv : fieldGet a k = some v) :
    (k, v) ∈ presentEntries a := by
  rw [presentEntries, List.mem_filterMap]
  refine ⟨(k, fieldGet a k), List.mem_map.mpr ⟨k, hk, rfl⟩, ?_⟩
  rw [hv]
  rfl

/-- The answer mapping has at most eight present entries. -/
theorem presentEntries_length_le (a : AnswerMap) : (presentEntries a).length ≤ 8 := by
  rw [presentEntries]
  exact le_trans (List.length_filterMap_le _ _) (by simp [EXPECTED_FIELDS])

/-- The largest possible confidence deduction is 0.1 (OCR) + 4·0.05
(missing core fields) + 8·0.02 (a stored null in each of the eight
vocabulary slots), so `calculateConfidence` is always at least 0.54. -/
theorem calculateConfidence_ge_54 (a : AnswerMap) (isOcr : Bool) :
    54 ≤ calculateConfidence a isOcr := by
  have hnull : ((presentEntries a).filter (fun kv => kv.2 == JsVal.nullV)).length ≤ 8 :=
    le_trans (List.length_filter_le _ _) (presentEntries_length_le a)
  have hcore : (CORE_FIELDS.filter (fun f =>
      (((presentEntries a).filter (fun kv => kv.2 != JsVal.nullV)).map
        (fun kv => kv.1)).contains f)).length ≤ 4 :=
    le_trans (List.length_filter_le _ _) (by simp [CORE_FIELDS])
  have hlen : CORE_FIELDS.length = 4 := rfl
  simp only [calculateConfidence]
  cases isOcr <;> simp only [Bool.false_eq_true, if_true, if_false, hlen] <;> omega

/-- Zero non-null answers force every core field to be missing. -/
theorem answered_zero_missing (a : AnswerMap)
    (h : ((presentEntries a).filter (fun kv => kv.2 != JsVal.nullV)).length = 0) :
    getMissingFields a = CORE_FIELDS := by
  have hz := List.filter_eq_nil_iff.mp (List.length_eq_zero.mp h)
  have main : ∀ k ∈ EXPECTED_FIELDS, isMissing (fieldGet a k) = true := by
    intro k hk
    cases hv : fieldGet a k with
    | none => rfl
    | some v =>
      have hnn := hz (k, v) (presentEntries_mem a k v hk hv)
      simp only [bne_iff_ne, ne_eq, not_not] at hnn
      subst hnn
      rfl
  rw [getMissingFields]
  refine List.filter_eq_self.mpr ?_
  intro f hf
  apply main
  simp only [CORE_FIELDS, List.mem_cons, List.not_mem_nil, or_false] at hf
  rcases hf with rfl | rfl | rfl | rfl <;> decide

/-- C10: through `parseSurvey`, the `low_confidence` and `no_data` failure
branches of `checkProfileCompleteness` are unreachable: an error-free
parse result has confidence at least 0.54 (above the 0.3 threshold), and
zero non-null answers force all four core fields missing, which triggers
the `incomplete_profile` check first. -/
theorem checkProfileCompleteness_c10 (jp : String → Option RawObj)
    (input : InputValue) (isOcr : Bool)
    (h : (parseSurvey jp input isOcr).error = none) :
    54 ≤ (parseSurvey jp input isOcr).confidence ∧
    (checkProfileCompleteness (parseSurvey jp input isOcr)).status ≠
      some "low_confidence" ∧
    (checkProfileCompleteness (parseSurvey jp input isOcr)).status ≠ some "no_data" := by
  cases hpa : parseSurveyAnswers jp input isOcr with
  | error msg =>
    rw [parseSurvey, hpa] at h
    simp at h
  | ok a =>
    have hps : parseSurvey jp input isOcr =
        { answers := a, missing_fields := getMissingFields a,
          confidence := calculateConfidence a isOcr } := by
      rw [parseSurvey, hpa]
    rw [hps]
    have hge := calculateConfidence_ge_54 a isOcr
    have hnc : ¬(calculateConfidence a isOcr < CONFIG.MIN_CONFIDENCE) := by
      show ¬(calculateConfidence a isOcr < 30)
      omega
    refine ⟨hge, ?_, ?_⟩ <;>
      · simp only [checkProfileCompleteness, if_neg hnc]
        by_cases hmiss : (getMissingFields a).length * 100 >
            CONFIG.MAX_MISSING_PERCENTAGE * CORE_FIELDS.length
        · simp [if_pos hmiss]
        · rw [if_neg hmiss]
          by_cases hans :
            ((presentEntries a).filter (fun kv => kv.2 != JsVal.nullV)).length = 0
          · exfalso
            apply hmiss
            rw [answered_zero_missing a hans]
            decide
          · simp [if_neg hans]

/-- Witness for C10 at structured input `{age: 45}` (error-free parse). -/
theorem checkProfileCompleteness_c10_witness :
    (parseSurvey jpNone (.obj { age := some (.numV 45) }) false).error = none ∧
    (54 ≤ (parseSurvey jpNone (.obj { age := some (.numV 45) }) false).confidence ∧
      (checkProfileCompleteness
        (parseSurvey jpNone (.obj { age := some (.numV 45) }) false)).status ≠
        some "low_confidence" ∧
      (checkProfileCompleteness
        (parseSurvey jpNone (.obj { age := some (.numV 45) }) false)).status ≠
        some "no_data") :=
  ⟨by decide,
    checkProfileCompleteness_c10 jpNone (.obj { age := some (.numV 45) }) false (by decide)⟩

/-! ## Pipeline orchestrator (pipeline.js) and `/api/analyze` (server.js) -/

/-- `createErrorResponse` payload from schemaValidator.js (status, reason,
optional extras; the timestamp is outside the model). -/
structure ErrorResponse where
  status : String
  reason : String
  missing_fields : Option (List String) := none
  partial_parse : Option (AnswerMap × Nat) := none
deriving DecidableEq, Repr

/-- The `data` payload of a pipeline step record. -/
inductive StepData where
  | validFlag : StepData
  | parseData : ParseResult → StepData
  | factorData : FactorResult → StepData
  | riskData : RiskResult → StepData
  | recData : RecResult → StepData
deriving DecidableEq, Repr

/-- A `StepResult` of pipeline.js (timestamp outside the model). -/
structure StepRec where
  step : String
  success : Bool
  data : Option StepData := none
  error : Option String := none
deriving DecidableEq, Repr

/-- The compiled success payload: `createSuccessResponse(finalData,
'analysisResponse')`.  Every required field of the `analysisResponse`
schema is present, so `ensureSchemaCompliance` adds nothing; the timestamp
is outside the model. -/
structure FinalData where
  status : String
  answers : AnswerMap
  missing_fields : List String
  parse_confidence : Nat
  corrections : List Correction
  factors : List String
  factor_confidence : Nat
  factor_details : List FactorDetail
  risk_level : String
  score : Nat
  rationale : List String
  recommendations : List String
  detailed_recommendations : List DetailedRec
  warnings : List Warning
  pipeline_steps : Nat
deriving DecidableEq, Repr

/-- The `pipelineResult` record of `runAnalysisPipeline`. -/
structure PipelineResult where
  success : Bool
  steps : List StepRec
  data : Option FinalData := none
  error : Option ErrorResponse := none
deriving DecidableEq, Repr

/-- `runAnalysisPipeline` from pipeline.js.  The `validateSchemas` option
only drives `console.warn` logging and `stopOnWarning` is never read, so
neither affects the result; every modelled stage is a total function, so
the orchestrator's `pipeline_error` catch-all is unreachable here. -/
def runAnalysisPipeline (jp : String → Option RawObj) (input : InputValue)
    (isOcr : Bool) : PipelineResult :=
  let iv := validateInput jp input
  if iv.isValid = false then
    { success := false
      steps := [{ step := "input_validation", success := false, error := iv.reason }]
      error := some ⟨iv.status.getD "", iv.reason.getD "", none, none⟩ }
  else
    let steps0 : List StepRec :=
      [{ step := "input_validation", success := true, data := some .validFlag }]
    let parseResult := parseSurvey jp input isOcr
    let cc := checkProfileCompleteness parseResult
    if cc.isValid = false then
      { success := false
        steps := steps0 ++
          [{ step := "parse", success := false, data := some (.parseData parseResult),
             error := cc.reason }]
        error := some ⟨cc.status.getD "", cc.reason.getD "",
          some (cc.missing_fields.getD parseResult.missing_fields),
          some (parseResult.answers, parseResult.confidence)⟩ }
    else
      let rv := validateAnswerRanges parseResult.answers
      let parseResult2 :=
        if rv.isValid = false then
          { parseResult with
              answers := rv.correctedAnswers
              corrections := some rv.corrections }
        else parseResult
      let steps1 := steps0 ++
        [{ step := "parse", success := true, data := some (.parseData parseResult2) }]
      let factorResult := extractFactors parseResult2.answers
      let steps2 := steps1 ++
        [{ step := "factors", success := true, data := some (.factorData factorResult) }]
      let riskResult := classifyRisk factorResult.factors parseResult2.answers
      let steps3 := steps2 ++
        [{ step := "risk", success := true, data := some (.riskData riskResult) }]
      let recResult := generateRecommendations factorResult.factors riskResult.risk_level
      let steps4 := steps3 ++
        [{ step := "recommendations", success := true, data := some (.recData recResult) }]
      { success := true
        steps := steps4
        data := some
          { status := "ok"
            answers := parseResult2.answers
            missing_fields := parseResult2.missing_fields
            parse_confidence := parseResult2.confidence
            corrections := parseResult2.corrections.getD []
            factors := factorResult.factors
            factor_confidence := factorResult.confidence
            factor_details := factorResult.factor_details
            risk_level := riskResult.risk_level
            score := riskResult.score
            rationale := riskResult.rationale
            recommendations := recResult.recommendations
            detailed_recommendations := recResult.detailed_recommendations
            warnings := cc.warnings.getD []
            pipeline_steps := steps4.length } }

/-- An HTTP response of the `/api/analyze` handler: the status code plus
either the structured error or the success payload. -/
structure HttpResponse where
  statusCode : Nat
  errorBody : Option ErrorResponse := none
  successBody : Option FinalData := none
deriving DecidableEq, Repr

/-- The `POST /api/analyze` handler of server.js: run the pipeline; on
failure respond with
`pipelineResult.error?.status === 'invalid_input' ? 400 : 200` and the
error body, on success with 200 and the payload. -/
def analyzeHandler (jp : String → Option RawObj) (input : InputValue)
    (isOcr : Bool) : HttpResponse :=
  let r := runAnalysisPipeline jp input isOcr
  if r.success = false then
    { statusCode :=
        if r.error.map (fun e => e.status) = some "invalid_input" then 400 else 200
      errorBody := r.error }
  else { statusCode := 200, successBody := r.data }

/-- The input-validation guardrail produces only the three input-shape
statuses (or none, when valid). -/
theorem validateInput_status (jp : String → Option RawObj) (input : InputValue) :
    (validateInput jp input).status = none ∨
    (validateInput jp input).status = some "invalid_input" ∨
    (validateInput jp input).status = some "empty_input" ∨
    (validateInput jp input).status = some "invalid_json" := by
  cases input <;> simp only [validateInput] <;> (try split_ifs) <;> simp

/-- The completeness guardrail produces only its five statuses. -/
theorem checkProfileCompleteness_status (pr : ParseResult) :
    (checkProfileCompleteness pr).status = some "parse_error" ∨
    (checkProfileCompleteness pr).status = some "low_confidence" ∨
    (checkProfileCompleteness pr).status = some "incomplete_profile" ∨
    (checkProfileCompleteness pr).status = some "no_data" ∨
    (checkProfileCompleteness pr).status = some "ok" := by
  rw [checkProfileCompleteness]
  cases pr.error <;> (try split_ifs) <;> simp

/-- A successful pipeline run carries no error. -/
theorem runAnalysisPipeline_success_error (jp : String → Option RawObj)
    (input : InputValue) (isOcr : Bool) :
    (runAnalysisPipeline jp input isOcr).success = true →
    (runAnalysisPipeline jp input isOcr).error = none := by
  simp only [runAnalysisPipeline]
  split
  · simp
  · split <;> simp

/-- C2 counterexample: the empty-string input fails input validation with
`empty_input`, but `/api/analyze` responds 200, not 400 (only
`invalid_input` is mapped to 400). -/
theorem analyze_c2_counterexample :
    (validateInput jpNone (.str "")).status = some "empty_input" ∧
    (runAnalysisPipeline jpNone (.str "") false).error.map (fun e => e.status) =
      some "empty_input" ∧
    (analyzeHandler jpNone (.str "") false).statusCode = 200 := by
  refine ⟨by decide, by decide, by decide⟩

/-- C2 (amended): `/api/analyze` responds 400 exactly when the pipeline
failed with error status `invalid_input`; every other outcome — including
the `empty_input` and `invalid_json` guardrail failures and all
data-quality failures — is served with HTTP 200. -/
theorem analyzeHandler_status_c2 (jp : String → Option RawObj) (input : InputValue)
    (isOcr : Bool) :
    (analyzeHandler jp input isOcr).statusCode = 400 ↔
      (runAnalysisPipeline jp input isOcr).error.map (fun e => e.status) =
        some "invalid_input" := by
  by_cases hs : (runAnalysisPipeline jp input isOcr).success = false
  · simp only [analyzeHandler, if_pos hs]
    by_cases hc : (runAnalysisPipeline jp input isOcr).error.map (fun e => e.status) =
        some "invalid_input"
    · simp [hc]
    · simp [hc]
  · have herr := runAnalysisPipeline_success_error jp input isOcr
      (by revert hs; cases (runAnalysisPipeline jp input isOcr).success <;> simp)
    simp [analyzeHandler, if_neg hs, herr]

/-- C3 counterexample: the short OCR input `"hi"` (non-empty, shorter than
10 characters) does not produce `invalid_ocr` in `runAnalysisPipeline`; it
halts at the parse stage with `incomplete_profile`. -/
theorem runAnalysisPipeline_c3_counterexample :
    (runAnalysisPipeline jpNone (.str "hi") true).success = false ∧
    (runAnalysisPipeline jpNone (.str "hi") true).error.map (fun e => e.status) =
      some "incomplete_profile" ∧
    (runAnalysisPipeline jpNone (.str "hi") true).error.map (fun e => e.status) ≠
      some "invalid_ocr" := by
  refine ⟨by decide, by decide, by decide⟩

/-- C3 (amended): `runAnalysisPipeline` never calls `validateOcrText`, so
no input (OCR or not) produces the `invalid_ocr` status there — the
terminal failure reachable from the parse stage for a short OCR text is
`incomplete_profile` (the `invalid_ocr` check lives only in the
`/api/analyze/legacy` and `/api/analyze/parse` handlers); concretely, the
OCR input `"hi"` halts at the parse step with `incomplete_profile`. -/
theorem runAnalysisPipeline_c3 :
    (∀ (jp : String → Option RawObj) (input : InputValue) (isOcr : Bool),
      (runAnalysisPipeline jp input isOcr).error.map (fun e => e.status) ≠
        some "invalid_ocr") ∧
    (runAnalysisPipeline jpNone (.str "hi") true).steps.map
        (fun s => (s.step, s.success)) =
      [("input_validation", true), ("parse", false)] ∧
    (runAnalysisPipeline jpNone (.str "hi") true).error.map (fun e => e.status) =
      some "incomplete_profile" := by
  refine ⟨?_, by decide, by decide⟩
  intro jp input isOcr
  simp only [runAnalysisPipeline]
  split
  · rcases validateInput_status jp input with h | h | h | h <;> simp [h]
  · split
    · rcases checkProfileCompleteness_status (parseSurvey jp input isOcr) with
        h | h | h | h | h <;> simp [h]
    · simp

end HealthRisk
